import Mathlib

/-!
Verification of the socket interception state machine of ip2unix
(src/src/socket.cc).  The Socket operations are translated directly from
the source; external collaborators whose code is not part of the
repository snapshot (the SockAddr address abstraction, the ephemeral
port allocator, the blackhole sink and the socket-option replay cache)
are modelled from the specification, and the real OS syscalls are
modelled as oracle inputs together with an explicit event trace.
-/

namespace Ip2Unix

/-! ### Constants (from the platform headers used by the source) -/

def AF_UNIX : Nat := 1

def AF_INET : Nat := 2

def AF_INET6 : Nat := 10

def SOCK_STREAM : Nat := 1

def SOCK_DGRAM : Nat := 2

def EFAULT : Nat := 14

def EINVAL : Nat := 22

def EADDRNOTAVAIL : Nat := 99

/-! ### Socket types (src/src/socket.cc, get_sotype) -/

inductive SocketType
  | TCP
  | UDP
  | INVALID
deriving DecidableEq

def get_sotype (stype : Nat) : SocketType :=
  let m := Nat.land stype (Nat.lor SOCK_STREAM SOCK_DGRAM)
  if m = SOCK_STREAM then SocketType.TCP
  else if m = SOCK_DGRAM then SocketType.UDP
  else SocketType.INVALID

def typeToStr : SocketType → String
  | SocketType.TCP => "tcp"
  | SocketType.UDP => "udp"
  | SocketType.INVALID => "unknown"

/-! ### Peer credentials -/

structure Ucred where
  uid : Nat
  gid : Nat
  pid : Nat
deriving DecidableEq

/-! ### SockAddr

Modelled from the spec: the SockAddr implementation is not part of the
source snapshot (only its uses in src/src/socket.cc are).  The spec
describes it as a tagged union over IPv4/IPv6/UNIX carrying family,
host, port and filesystem path, with loopback detection, loopback /
credential-derived / random host synthesis, and a UNIX constructor that
fails when the path exceeds the platform limit. -/

structure SockAddr where
  family : Nat
  host : Option String
  loopback : Bool
  port : Option Nat
  sockpath : Option String
deriving DecidableEq

def sunPathMax : Nat := 107

def SockAddr.default : SockAddr :=
  { family := 0, host := none, loopback := false, port := none, sockpath := none }

def SockAddr.copy (a : SockAddr) : SockAddr := a

def SockAddr.get_host (a : SockAddr) : Option String := a.host

def SockAddr.get_port (a : SockAddr) : Option Nat := a.port

def SockAddr.get_port_str (a : SockAddr) : Option String := a.port.map toString

def SockAddr.get_sockpath (a : SockAddr) : Option String := a.sockpath

def SockAddr.is_loopback (a : SockAddr) : Bool := a.loopback

def SockAddr.set_port (a : SockAddr) (p : Nat) : Option SockAddr :=
  if a.family = AF_INET ∨ a.family = AF_INET6 then some { a with port := some p }
  else none

/-- Modelled from the spec: the loopback host of an IP family. -/
def loopbackHost (fam : Nat) : Option String :=
  if fam = AF_INET then some "127.0.0.1"
  else if fam = AF_INET6 then some "::1"
  else none

/-- Modelled from the spec: set_host(from_loopback_template) yields a
loopback address of the same family. -/
def SockAddr.set_host_loopback (a : SockAddr) : Option SockAddr :=
  (loopbackHost a.family).map fun h => { a with host := some h, loopback := true }

/-- Modelled from the spec: a deterministic non-loopback host derived
from peer credentials; identical credentials yield identical hosts. -/
def credHost (fam : Nat) (c : Ucred) : Option String :=
  if fam = AF_INET ∨ fam = AF_INET6 then
    some ("cred-" ++ toString fam ++ "-" ++ toString c.uid ++ "-"
          ++ toString c.gid ++ "-" ++ toString c.pid)
  else none

def SockAddr.set_host_cred (a : SockAddr) (c : Ucred) : Option SockAddr :=
  (credHost a.family c).map fun h => { a with host := some h, loopback := false }

/-- Modelled from the spec: a fresh non-colliding host; the randomness
source is made explicit as an oracle value. -/
def randomHost (r : Nat) : String := "rand-" ++ toString r

def SockAddr.set_random_host (a : SockAddr) (r : Nat) : Option SockAddr :=
  if a.family = AF_INET ∨ a.family = AF_INET6 then
    some { a with host := some (randomHost r), loopback := false }
  else none

/-- Modelled from the spec: SockAddr::unix fails if the path length
exceeds the platform limit. -/
def SockAddr.unix (path : String) : Option SockAddr :=
  if path.length ≤ sunPathMax then
    some { family := AF_UNIX, host := none, loopback := false, port := none,
           sockpath := some path }
  else none

/-! ### Ephemeral port allocator

Modelled from the spec: a per-socket pool over the ephemeral range;
acquire returns a port not currently reserved and marks it reserved,
reserve is idempotent, release unreserves. -/

def ephemeralLo : Nat := 32768

def ephemeralHi : Nat := 60999

structure Ports where
  reserved : List Nat
deriving DecidableEq

def Ports.init : Ports := { reserved := [] }

def Ports.isReserved (ps : Ports) (p : Nat) : Bool := ps.reserved.contains p

def findFree (ps : Ports) : Nat → Nat → Option Nat
  | _, 0 => none
  | start, fuel + 1 =>
    if ps.isReserved start then findFree ps (start + 1) fuel else some start

def Ports.acquire (ps : Ports) : Nat × Ports :=
  match findFree ps ephemeralLo (ephemeralHi + 1 - ephemeralLo) with
  | some p => (p, { reserved := p :: ps.reserved })
  | none => (0, ps)

def Ports.reserve (ps : Ports) (p : Nat) : Ports :=
  if ps.isReserved p then ps else { reserved := p :: ps.reserved }

def Ports.release (ps : Ports) (p : Nat) : Ports :=
  { reserved := ps.reserved.filter fun q => decide (q ≠ p) }

/-! ### Association lists for peermap / revpeermap and the fd registry -/

def assocFind {α β : Type} [DecidableEq α] : List (α × β) → α → Option β
  | [], _ => none
  | (k, v) :: rest, a => if k = a then some v else assocFind rest a

def assocInsert {α β : Type} [DecidableEq α] (l : List (α × β)) (k : α) (v : β) :
    List (α × β) :=
  (k, v) :: l.filter fun e => decide (e.1 ≠ k)

/-! ### The Socket shadow state (src/src/socket.cc, class Socket) -/

structure Socket where
  type : SocketType
  fd : Int
  domain : Nat
  typearg : Nat
  protocol : Nat
  activated : Bool
  bound : Bool
  binding : Option SockAddr
  connection : Option SockAddr
  sockpath : Option String
  sockopts : List (Nat × Nat)
  ports : Ports
  peermap : List (SockAddr × String)
  revpeermap : List (String × SockAddr)
  blackhole_ref : Option String
  is_unix : Bool
  is_blackhole : Bool
deriving DecidableEq

/-- The Socket constructor (src/src/socket.cc lines 50-67). -/
def Socket.mk0 (fd : Int) (domain typearg protocol : Nat) : Socket :=
  { type := get_sotype typearg, fd := fd, domain := domain, typearg := typearg,
    protocol := protocol, activated := false, bound := false, binding := none,
    connection := none, sockpath := none, sockopts := [], ports := Ports.init,
    peermap := [], revpeermap := [], blackhole_ref := none, is_unix := false,
    is_blackhole := false }

/-! ### Process-wide registries (src/src/socket.cc lines 46-48) -/

structure World where
  registry : List (Int × Socket)
  sockpathRegistry : List String
deriving DecidableEq

def World.init : World := { registry := [], sockpathRegistry := [] }

def has_sockpath (w : World) (p : String) : Bool := w.sockpathRegistry.contains p

def registryInsert (l : List (Int × Socket)) (fd : Int) (s : Socket) :
    List (Int × Socket) :=
  (fd, s) :: l.filter fun e => decide (e.1 ≠ fd)

def registryErase (l : List (Int × Socket)) (fd : Int) : List (Int × Socket) :=
  l.filter fun e => decide (e.1 ≠ fd)

/-! ### Real-call events: the trace of syscalls performed via the
real-call gateway, and unlinks of socket files. -/

inductive Event
  | realSocket
  | realBind (fd : Int) (path : Option String)
  | realConnect (fd : Int) (path : Option String)
  | realClose (fd : Int)
  | dup2 (oldfd newfd : Int)
  | unlinkPath (path : String)
deriving DecidableEq

/-! ### format_sockpath (src/src/socket.cc lines 139-168) -/

def formatChars (ty : SocketType) (host portStr : Option String) :
    List Char → List Char
  | [] => []
  | '%' :: c :: rest =>
    if c = '%' then '%' :: formatChars ty host portStr rest
    else if c = 'a' then
      (host.getD "unknown").toList ++ formatChars ty host portStr rest
    else if c = 'p' then
      (portStr.getD "unknown").toList ++ formatChars ty host portStr rest
    else if c = 't' then
      (typeToStr ty).toList ++ formatChars ty host portStr rest
    else '%' :: formatChars ty host portStr (c :: rest)
  | c :: rest => c :: formatChars ty host portStr rest

def Socket.format_sockpath (s : Socket) (path : String) (addr : SockAddr) :
    String :=
  String.mk (formatChars s.type addr.get_host addr.get_port_str path.toList)

/-! ### make_unix (src/src/socket.cc lines 178-205)

The fresh AF_UNIX fd, the option replay outcome and the dup2 outcome
come from the environment; they are modelled as an oracle. -/

structure MUOracle where
  socketFd : Option Int
  replayOk : Bool
  dup2Ok : Bool
deriving DecidableEq

def Socket.make_unix (s : Socket) (oldfd : Int) (o : MUOracle) :
    Bool × Socket × List Event :=
  if s.is_unix then (true, s, [])
  else
    let acq : Option Int × List Event :=
      if oldfd ≠ -1 then (some oldfd, []) else (o.socketFd, [Event.realSocket])
    match acq with
    | (none, evs) => (false, s, evs)
    | (some newfd, evs) =>
      if !o.replayOk then (false, s, evs ++ [Event.realClose newfd])
      else if !o.dup2Ok then
        (false, s, evs ++ [Event.dup2 newfd s.fd, Event.realClose newfd])
      else (true, { s with is_unix := true }, evs ++ [Event.dup2 newfd s.fd])

/-! ### create_binding (src/src/socket.cc lines 210-235)

The process's own credentials (getuid/getgid/getpid) are an oracle. -/

def Socket.create_binding (s : Socket) (addr : SockAddr) (cred : Ucred) :
    Bool × Socket :=
  let local0 : SockAddr := { SockAddr.default with family := s.domain }
  let mhost :=
    if addr.is_loopback then local0.set_host_loopback
    else local0.set_host_cred cred
  match mhost with
  | none => (false, s)
  | some l1 =>
    let ap := s.ports.acquire
    let s1 := { s with ports := ap.2 }
    match l1.set_port ap.1 with
    | none => (false, s1)
    | some l2 => (true, { s1 with binding := some l2 })

/-! ### bind (src/src/socket.cc lines 261-308) -/

/-- The port-0 special case of bind: copy the address and, if its port
is zero, substitute a freshly acquired ephemeral port.  Returns the new
address, the port that bind will later reserve, and the socket with the
updated pool. -/
def bindPortStep (s : Socket) (addr : SockAddr) : SockAddr × Option Nat × Socket :=
  match addr.copy.get_port with
  | some 0 =>
    let ap := s.ports.acquire
    let na := (addr.copy.set_port ap.1).getD addr.copy
    (na, some ap.1, { s with ports := ap.2 })
  | p => (addr.copy, p, s)

def bindFinish (s : Socket) (port : Option Nat) (newaddr : SockAddr) : Socket :=
  let ps := match port with
    | some p => s.ports.reserve p
    | none => s.ports
  { s with ports := ps, bound := true, binding := some newaddr }

structure BindOracle where
  mu : MUOracle
  bhPath : Option String
  bindRet : Int
  bindErrno : Nat
deriving DecidableEq

structure OpRes where
  ret : Int
  sock : Socket
  world : World
  errno : Nat
  events : List Event
deriving DecidableEq

def Socket.bind (s : Socket) (w : World) (errno0 : Nat) (addr : SockAddr)
    (path : String) (o : BindOracle) : OpRes :=
  match s.make_unix (-1) o.mu with
  | (false, s1, evs) => ⟨-1, s1, w, errno0, evs⟩
  | (true, s1, evs) =>
    match bindPortStep s1 addr with
    | (newaddr, port, s2) =>
      let newpath := s2.format_sockpath path newaddr
      if s2.is_blackhole || has_sockpath w newpath then
        match o.bhPath with
        | none => ⟨-1, s2, w, errno0, evs⟩
        | some bhp =>
          match SockAddr.unix bhp with
          | none => ⟨-1, s2, w, EFAULT, evs⟩
          | some dest =>
            let evs2 := evs ++ [Event.realBind s2.fd dest.get_sockpath]
            if o.bindRet = 0 then
              ⟨0, bindFinish { s2 with is_blackhole := true } port newaddr, w,
               errno0, evs2⟩
            else ⟨o.bindRet, s2, w, o.bindErrno, evs2⟩
      else
        match SockAddr.unix newpath with
        | none => ⟨-1, s2, w, EFAULT, evs⟩
        | some dest =>
          let evs2 := evs ++ [Event.realBind s2.fd dest.get_sockpath]
          if o.bindRet = 0 then
            ⟨0, bindFinish { s2 with sockpath := some newpath } port newaddr,
             { w with sockpathRegistry := newpath :: w.sockpathRegistry },
             errno0, evs2⟩
          else ⟨o.bindRet, s2, w, o.bindErrno, evs2⟩

/-! ### connect_peermap (src/src/socket.cc lines 310-325) -/

structure CPOracle where
  connectRet : Int
  connectErrno : Nat
deriving DecidableEq

def Socket.connect_peermap (s : Socket) (errno0 : Nat) (addr : SockAddr)
    (o : CPOracle) : Option Int × Socket × Nat × List Event :=
  if s.type = SocketType.UDP then
    match assocFind s.peermap addr with
    | some p =>
      match SockAddr.unix p with
      | none => (some (-1), s, EFAULT, [])
      | some dest =>
        let evs := [Event.realConnect s.fd dest.get_sockpath]
        if o.connectRet ≠ 0 then (some o.connectRet, s, o.connectErrno, evs)
        else (some 0, { s with connection := some addr, sockpath := some p },
              errno0, evs)
    | none => (none, s, errno0, [])
  else (none, s, errno0, [])

/-! ### rewrite_dest (src/src/socket.cc lines 503-545) -/

structure RDOracle where
  mu : MUOracle
  bhPath : Option String
  bhBindRet : Int
  selfCred : Ucred
deriving DecidableEq

def Socket.rewrite_dest (s : Socket) (addr : SockAddr) (path : String)
    (o : RDOracle) : Option SockAddr × Socket × List Event :=
  if s.type ≠ SocketType.UDP then (none, s, [])
  else
    match SockAddr.unix (s.format_sockpath path addr) with
    | none => (none, s, [])
    | some destpath =>
      match s.make_unix (-1) o.mu with
      | (false, s1, evs) => (none, s1, evs)
      | (true, s1, evs) =>
        match s1.binding with
        | some _ => (some destpath, s1, evs)
        | none =>
          match o.bhPath with
          | none => (none, s1, evs)
          | some bhp =>
            match SockAddr.unix bhp with
            | none => (none, s1, evs)
            | some bhdest =>
              let evs2 := evs ++ [Event.realBind s1.fd bhdest.get_sockpath]
              if o.bhBindRet ≠ 0 then (none, s1, evs2)
              else
                match s1.create_binding addr o.selfCred with
                | (false, s2) => (none, s2, evs2)
                | (true, s2) =>
                  (some destpath,
                   { s2 with is_blackhole := true, blackhole_ref := some bhp },
                   evs2)

/-! ### connect (src/src/socket.cc lines 327-375) -/

structure ConnectOracle where
  mu : MUOracle
  connectRet : Int
  connectErrno : Nat
  bhPath : Option String
  bhBindRet : Int
  selfCred : Ucred
deriving DecidableEq

def Socket.connect (s : Socket) (w : World) (errno0 : Nat) (addr : SockAddr)
    (path : String) (o : ConnectOracle) : OpRes :=
  if s.type = SocketType.UDP ∧ s.binding = none then
    match s.rewrite_dest addr path ⟨o.mu, o.bhPath, o.bhBindRet, o.selfCred⟩ with
    | (none, s1, evs) => ⟨-1, s1, w, EADDRNOTAVAIL, evs⟩
    | (some dest, s1, evs) =>
      let evs2 := evs ++ [Event.realConnect s1.fd dest.get_sockpath]
      if o.connectRet = 0 then
        ⟨0, { s1 with connection := some addr, sockpath := dest.get_sockpath },
         w, errno0, evs2⟩
      else ⟨o.connectRet, s1, w, o.connectErrno, evs2⟩
  else
    let new_sockpath := s.format_sockpath path addr
    match SockAddr.unix new_sockpath with
    | none => ⟨-1, s, w, EFAULT, []⟩
    | some dest =>
      match s.make_unix (-1) o.mu with
      | (false, s1, evs) => ⟨-1, s1, w, errno0, evs⟩
      | (true, s1, evs) =>
        match addr.get_port with
        | none => ⟨-1, s1, w, EADDRNOTAVAIL, evs⟩
        | some remote_port =>
          let evs2 := evs ++ [Event.realConnect s1.fd dest.get_sockpath]
          if o.connectRet ≠ 0 then ⟨o.connectRet, s1, w, o.connectErrno, evs2⟩
          else
            match s1.binding with
            | none =>
              match s1.create_binding addr o.selfCred with
              | (false, s2) => ⟨-1, s2, w, EADDRNOTAVAIL, evs2⟩
              | (true, s2) =>
                ⟨0, { s2 with
                      ports := s2.ports.reserve remote_port,
                      connection := some addr, sockpath := some new_sockpath },
                 w, errno0, evs2⟩
            | some _ =>
              ⟨0, { s1 with
                    connection := some addr,
                    sockpath := some new_sockpath }, w, errno0, evs2⟩

/-! ### accept (src/src/socket.cc lines 377-430) -/

structure AcceptOracle where
  peercred : Option Ucred
  peercredErrno : Nat
deriving DecidableEq

structure AcceptRes where
  ret : Int
  sock : Socket
  world : World
  errno : Nat
  outAddr : Option SockAddr
deriving DecidableEq

def acceptFinish (s : Socket) (w : World) (errno0 : Nat) (sockfd : Int)
    (local_addr : SockAddr) (local_port : Nat) (peer1 : SockAddr) : AcceptRes :=
  let ap := s.ports.acquire
  let s1 := { s with ports := ap.2 }
  match peer1.set_port ap.1 with
  | none => ⟨-1, s1, w, EINVAL, none⟩
  | some peer =>
    let child0 := Socket.mk0 sockfd s.domain s.typearg s.protocol
    let child := { child0 with
                   ports := child0.ports.reserve local_port,
                   binding := some local_addr, connection := some peer }
    ⟨sockfd, s1, { w with registry := registryInsert w.registry sockfd child },
     errno0, some peer⟩

def Socket.accept (s : Socket) (w : World) (errno0 : Nat) (sockfd : Int)
    (o : AcceptOracle) : AcceptRes :=
  match s.binding with
  | none => ⟨-1, s, w, EINVAL, none⟩
  | some b =>
    let local_addr := b.copy
    match local_addr.get_port with
    | none => ⟨-1, s, w, EINVAL, none⟩
    | some local_port =>
      let peer0 : SockAddr := { SockAddr.default with family := s.domain }
      if b.is_loopback then
        match peer0.set_host_loopback with
        | none => ⟨-1, s, w, EADDRNOTAVAIL, none⟩
        | some peer1 => acceptFinish s w errno0 sockfd local_addr local_port peer1
      else
        match o.peercred with
        | none => ⟨-1, s, w, o.peercredErrno, none⟩
        | some cred =>
          match peer0.set_host_cred cred with
          | none => ⟨-1, s, w, EINVAL, none⟩
          | some peer1 => acceptFinish s w errno0 sockfd local_addr local_port peer1

/-! ### getpeername / getsockname (src/src/socket.cc lines 432-452) -/

def Socket.getpeername (s : Socket) (errno0 : Nat) :
    Int × Nat × Option SockAddr :=
  match s.connection with
  | some c => (0, errno0, some c)
  | none => (-1, EFAULT, none)

def Socket.getsockname (s : Socket) (errno0 : Nat) :
    Int × Nat × Option SockAddr :=
  match s.binding with
  | some b => (0, errno0, some b)
  | none => (-1, EFAULT, none)

/-! ### rewrite_src (src/src/socket.cc lines 455-489)

The random host source is an oracle. -/

structure RSOracle where
  rnd : Nat
deriving DecidableEq

def Socket.rewrite_src (s : Socket) (real_addr : SockAddr) (o : RSOracle) :
    Bool × Socket × Option SockAddr :=
  match s.binding with
  | none => (true, s, none)
  | some b =>
    match real_addr.get_sockpath with
    | none => (true, s, none)
    | some path =>
      match assocFind s.revpeermap path with
      | some found => (true, s, some found)
      | none =>
        let peer0 : SockAddr := { SockAddr.default with family := s.domain }
        let ap := s.ports.acquire
        let s1 := { s with ports := ap.2 }
        let peer1 := (peer0.set_port ap.1).getD peer0
        let mpeer2 :=
          if b.is_loopback then peer1.set_host_loopback
          else peer1.set_random_host o.rnd
        match mpeer2 with
        | none => (false, s1, none)
        | some peer =>
          (true,
           { s1 with
             peermap := assocInsert s1.peermap peer path,
             revpeermap := assocInsert s1.revpeermap path peer },
           some peer)

/-! ### close (src/src/socket.cc lines 547-567) -/

structure CloseOracle where
  closeRet : Int
  closeErrno : Nat
  unlinkErrno : Nat
deriving DecidableEq

def Socket.close (s : Socket) (w : World) (errno0 : Nat) (o : CloseOracle) :
    OpRes :=
  if s.activated then
    ⟨0, s, { w with registry := registryErase w.registry s.fd }, errno0, []⟩
  else
    let errno1 := if o.closeRet = 0 then errno0 else o.closeErrno
    match s.sockpath with
    | some p =>
      if s.bound && !s.is_blackhole then
        let errAfterUnlink := o.unlinkErrno
        let errRestored := errno1
        let keepRestored := fun (_ : Nat) => errRestored
        ⟨o.closeRet, { s with sockpath := none },
         { w with
           sockpathRegistry := w.sockpathRegistry.filter fun q => decide (q ≠ p),
           registry := registryErase w.registry s.fd },
         keepRestored errAfterUnlink,
         [Event.realClose s.fd, Event.unlinkPath p]⟩
      else
        ⟨o.closeRet, s, { w with registry := registryErase w.registry s.fd },
         errno1, [Event.realClose s.fd]⟩
    | none =>
      ⟨o.closeRet, s, { w with registry := registryErase w.registry s.fd },
       errno1, [Event.realClose s.fd]⟩

/-! ### Operation traces for the path-registry invariant -/

inductive Op
  | bindOp (addr : SockAddr) (path : String) (o : BindOracle)
  | connectOp (addr : SockAddr) (path : String) (o : ConnectOracle)
  | closeOp (o : CloseOracle)

def Op.isConnect : Op → Bool
  | Op.connectOp _ _ _ => true
  | _ => false

structure PState where
  sock : Socket
  world : World
  closed : Bool
  errno : Nat

def stepOp (st : PState) (op : Op) : PState :=
  if st.closed then st
  else
    match op with
    | Op.bindOp addr path o =>
      let r := st.sock.bind st.world st.errno addr path o
      ⟨r.sock, r.world, false, r.errno⟩
    | Op.connectOp addr path o =>
      let r := st.sock.connect st.world st.errno addr path o
      ⟨r.sock, r.world, false, r.errno⟩
    | Op.closeOp o =>
      let r := st.sock.close st.world st.errno o
      ⟨r.sock, r.world, true, r.errno⟩

def runOps (st : PState) : List Op → PState
  | [] => st
  | op :: rest => runOps (stepOp st op) rest

/-- The claimed invariant: a non-blackhole, bound socket's current
sockpath is in the process-wide path registry exactly while the socket
has not been closed. -/
def pathInvB (s : Socket) (reg : List String) (closed : Bool) : Bool :=
  if s.is_blackhole then true
  else if !s.bound then true
  else
    match s.sockpath with
    | some p => reg.contains p == !closed
    | none => true

/-- Traces in which no connect is issued on an already-bound socket. -/
def goodOpsB (st : PState) : List Op → Bool
  | [] => true
  | op :: rest =>
    (!st.sock.bound || !op.isConnect) && goodOpsB (stepOp st op) rest

/-! ## Helper lemmas -/

lemma socket_eta_is_unix (s : Socket) (h : s.is_unix = true) :
    { s with is_unix := true } = s := by
  cases s
  simp_all

lemma make_unix_success (s : Socket) (oldfd : Int) (o : MUOracle)
    (h : (s.make_unix oldfd o).1 = true) :
    s.make_unix oldfd o
      = (true, { s with is_unix := true }, (s.make_unix oldfd o).2.2) := by
  by_cases hu : s.is_unix = true
  · simp [Socket.make_unix, hu, socket_eta_is_unix s hu]
  · rcases hr : o.replayOk <;> rcases hd : o.dup2Ok <;>
      by_cases ho : oldfd = -1 <;> rcases hsf : o.socketFd with _ | nf <;>
      simp_all [Socket.make_unix]

lemma make_unix_failure (s : Socket) (oldfd : Int) (o : MUOracle)
    (h : (s.make_unix oldfd o).1 = false) :
    (s.make_unix oldfd o).2.1 = s := by
  by_cases hu : s.is_unix = true
  · simp [Socket.make_unix, hu] at h
  · rcases hr : o.replayOk <;> rcases hd : o.dup2Ok <;>
      by_cases ho : oldfd = -1 <;> rcases hsf : o.socketFd with _ | nf <;>
      simp_all [Socket.make_unix]

lemma make_unix_no_connect (s : Socket) (oldfd : Int) (o : MUOracle)
    (fd : Int) (p : Option String) :
    Event.realConnect fd p ∉ (s.make_unix oldfd o).2.2 := by
  by_cases hu : s.is_unix = true
  · simp [Socket.make_unix, hu]
  · rcases hr : o.replayOk <;> rcases hd : o.dup2Ok <;>
      by_cases ho : oldfd = -1 <;> rcases hsf : o.socketFd with _ | nf <;>
      simp_all [Socket.make_unix]

lemma findFree_spec (ps : Ports) :
    ∀ fuel start p, findFree ps start fuel = some p →
      ps.isReserved p = false ∧ start ≤ p ∧ p < start + fuel := by
  intro fuel
  induction fuel with
  | zero => intro start p h; simp [findFree] at h
  | succ n ih =>
    intro start p h
    rw [findFree] at h
    by_cases hr : ps.isReserved start = true
    · simp only [hr, if_true] at h
      obtain ⟨h1, h2, h3⟩ := ih (start + 1) p h
      exact ⟨h1, by omega, by omega⟩
    · have hr' : ps.isReserved start = false := by simpa using hr
      simp only [hr', Bool.false_eq_true, if_false, Option.some.injEq] at h
      subst h
      exact ⟨hr', le_refl _, by omega⟩

lemma acquire_of_findFree (ps : Ports) (p : Nat)
    (h : findFree ps ephemeralLo (ephemeralHi + 1 - ephemeralLo) = some p) :
    ps.acquire = (p, { reserved := p :: ps.reserved }) := by
  simp [Ports.acquire, h]

lemma reserve_isReserved (ps : Ports) (p : Nat) :
    (ps.reserve p).isReserved p = true := by
  by_cases h : ps.isReserved p = true
  · simp [Ports.reserve, h]
  · simp only [Ports.reserve, h, if_neg]
    simp_all [Ports.isReserved]

lemma formatChars_cons_ne (ty : SocketType) (h p : Option String) (c : Char)
    (l : List Char) (hc : ¬c = '%') :
    formatChars ty h p (c :: l) = c :: formatChars ty h p l := by
  cases l with
  | nil => rw [formatChars.eq_def]; split <;> simp_all
  | cons d tail => rw [formatChars.eq_def]; split <;> simp_all

lemma formatChars_no_percent (ty : SocketType) (h p : Option String) :
    ∀ l, '%' ∉ l → formatChars ty h p l = l := by
  intro l
  induction l with
  | nil => intro; rfl
  | cons c rest ih =>
    intro hl
    have hc : ¬c = '%' := fun he => hl (he ▸ List.mem_cons_self c rest)
    have hr : '%' ∉ rest := fun hm => hl (List.mem_cons_of_mem c hm)
    rw [formatChars_cons_ne ty h p c rest hc, ih hr]

/-! ## Claim theorems -/

/-- C9: format_sockpath expands the escape %% to a literal %, %a to the
address's host string (or the literal unknown when absent), %p to the
address's port string (or unknown when absent), and %t to tcp, udp or
unknown according to the Socket's type; any other %x sequence is copied
literally (the % is emitted and scanning resumes at x); hence any
template containing no % character is returned unchanged. -/
theorem format_sockpath_placeholder_expansion (s : Socket) (addr : SockAddr) :
    (∀ l, s.format_sockpath (String.mk ('%' :: '%' :: l)) addr
        = String.mk ('%' :: (s.format_sockpath (String.mk l) addr).data)) ∧
    (∀ l, s.format_sockpath (String.mk ('%' :: 'a' :: l)) addr
        = (addr.get_host.getD "unknown") ++ s.format_sockpath (String.mk l) addr) ∧
    (∀ l, s.format_sockpath (String.mk ('%' :: 'p' :: l)) addr
        = (addr.get_port_str.getD "unknown") ++ s.format_sockpath (String.mk l) addr) ∧
    (∀ l, s.format_sockpath (String.mk ('%' :: 't' :: l)) addr
        = typeToStr s.type ++ s.format_sockpath (String.mk l) addr) ∧
    typeToStr SocketType.TCP = "tcp" ∧
    typeToStr SocketType.UDP = "udp" ∧
    typeToStr SocketType.INVALID = "unknown" ∧
    (∀ c l, c ≠ '%' → c ≠ 'a' → c ≠ 'p' → c ≠ 't' →
        s.format_sockpath (String.mk ('%' :: c :: l)) addr
        = String.mk ('%' :: (s.format_sockpath (String.mk (c :: l)) addr).data)) ∧
    (∀ c l, c ≠ '%' →
        s.format_sockpath (String.mk (c :: l)) addr
        = String.mk (c :: (s.format_sockpath (String.mk l) addr).data)) ∧
    (∀ t : String, '%' ∉ t.data → s.format_sockpath t addr = t) := by
  refine ⟨fun l => rfl, fun l => rfl, fun l => rfl, fun l => rfl, rfl, rfl, rfl,
    ?_, ?_, ?_⟩
  · intro c l h1 h2 h3 h4
    simp [Socket.format_sockpath, formatChars, h1, h2, h3, h4]
  · intro c l hc
    simp [Socket.format_sockpath, formatChars_cons_ne s.type addr.get_host
      addr.get_port_str c l hc]
  · intro t ht
    have := formatChars_no_percent s.type addr.get_host addr.get_port_str
      t.data ht
    simp [Socket.format_sockpath, String.toList, this]

/-- C9 witness: concrete placeholder expansions. -/
theorem format_sockpath_placeholder_expansion_witness :
    (Socket.mk0 3 AF_INET SOCK_STREAM 0).format_sockpath
        (String.mk ('%' :: 'x' :: "y".data))
        { family := AF_INET, host := some "127.0.0.1", loopback := true,
          port := some 80, sockpath := none }
      = String.mk ('%'
          :: ((Socket.mk0 3 AF_INET SOCK_STREAM 0).format_sockpath
                (String.mk ('x' :: "y".data))
                { family := AF_INET, host := some "127.0.0.1", loopback := true,
                  port := some 80, sockpath := none }).data) :=
  (format_sockpath_placeholder_expansion _ _).2.2.2.2.2.2.2.1 'x' "y".data
    (by decide) (by decide) (by decide) (by decide)

/-- C7: make_unix is idempotent: when is_unix is already set it returns
true and changes nothing.  When the socket has to be converted and the
replay of the cached socket options onto the fresh AF_UNIX fd fails,
make_unix returns false and the Socket state is unchanged: the fd field
still names the original descriptor and is_unix remains false. -/
theorem make_unix_idempotent_and_replay_failure (s : Socket) (oldfd : Int)
    (o : MUOracle) :
    (s.is_unix = true → s.make_unix oldfd o = (true, s, [])) ∧
    (s.is_unix = false → o.replayOk = false →
      (oldfd ≠ -1 ∨ o.socketFd.isSome = true) →
      (s.make_unix oldfd o).1 = false ∧ (s.make_unix oldfd o).2.1 = s) := by
  constructor
  · intro h
    simp [Socket.make_unix, h]
  · intro hu hr hfd
    by_cases ho : oldfd = -1
    · rcases hsf : o.socketFd with _ | nf
      · rcases hfd with h | h
        · exact absurd ho h
        · rw [hsf] at h; simp at h
      · simp [Socket.make_unix, hu, hr, ho, hsf]
    · simp [Socket.make_unix, hu, hr, ho]

lemma sockaddr_unix_of_isSome (p : String) (h : (SockAddr.unix p).isSome = true) :
    SockAddr.unix p
      = some { family := AF_UNIX, host := none, loopback := false, port := none,
               sockpath := some p } := by
  by_cases hl : p.length ≤ sunPathMax
  · simp [SockAddr.unix, hl]
  · simp [SockAddr.unix, hl] at h

/-! Shared concrete sample values for witnesses and counterexamples. -/

def sampleTCP : Socket := Socket.mk0 3 AF_INET SOCK_STREAM 0

def sampleUDP : Socket := Socket.mk0 5 AF_INET SOCK_DGRAM 0

def loopAddr (p : Nat) : SockAddr :=
  { family := AF_INET, host := some "127.0.0.1", loopback := true,
    port := some p, sockpath := none }

def remoteAddr (p : Nat) : SockAddr :=
  { family := AF_INET, host := some "10.0.0.5", loopback := false,
    port := some p, sockpath := none }

def muOK : MUOracle := { socketFd := some 7, replayOk := true, dup2Ok := true }

/-- C10: connect_peermap acts only on UDP sockets whose peermap already
contains the given address: there it performs the real connect against
the recorded UNIX path and, when that returns 0, records the connection
and the sockpath, returning the real return value; for a non-UDP socket
or an address absent from peermap it performs no syscall, changes no
state and returns no result. -/
theorem connect_peermap_spec (s : Socket) (e : Nat) (addr : SockAddr)
    (o : CPOracle) :
    (s.type ≠ SocketType.UDP → s.connect_peermap e addr o = (none, s, e, [])) ∧
    (s.type = SocketType.UDP → assocFind s.peermap addr = none →
      s.connect_peermap e addr o = (none, s, e, [])) ∧
    (∀ p, s.type = SocketType.UDP → assocFind s.peermap addr = some p →
      (SockAddr.unix p).isSome = true →
      (o.connectRet = 0 →
        s.connect_peermap e addr o
          = (some 0, { s with connection := some addr, sockpath := some p },
             e, [Event.realConnect s.fd (some p)])) ∧
      (o.connectRet ≠ 0 →
        s.connect_peermap e addr o
          = (some o.connectRet, s, o.connectErrno,
             [Event.realConnect s.fd (some p)]))) := by
  refine ⟨?_, ?_, ?_⟩
  · intro h
    simp [Socket.connect_peermap, h]
  · intro ht hf
    simp [Socket.connect_peermap, ht, hf]
  · intro p ht hf hun
    have hu := sockaddr_unix_of_isSome p hun
    constructor
    · intro hr
      simp [Socket.connect_peermap, ht, hf, hu, hr, SockAddr.get_sockpath]
    · intro hr
      simp [Socket.connect_peermap, ht, hf, hu, hr, SockAddr.get_sockpath]

/-- C10 witness: a UDP socket with a recorded peer connects to the
recorded path and stores connection and sockpath. -/
theorem connect_peermap_witness :
    ({ sampleUDP with
       peermap := [(remoteAddr 9000, "/tmp/u.sock")] }).connect_peermap 0
        (remoteAddr 9000) { connectRet := 0, connectErrno := 0 }
      = (some 0,
         { ({ sampleUDP with peermap := [(remoteAddr 9000, "/tmp/u.sock")] })
           with connection := some (remoteAddr 9000),
                sockpath := some "/tmp/u.sock" },
         0, [Event.realConnect 5 (some "/tmp/u.sock")]) :=
  ((connect_peermap_spec
      { sampleUDP with peermap := [(remoteAddr 9000, "/tmp/u.sock")] } 0
      (remoteAddr 9000) { connectRet := 0, connectErrno := 0 }).2.2
    "/tmp/u.sock" (by decide) (by decide) (by decide)).1 rfl

/-- C6: close of an activated Socket returns 0 without invoking the
real close and without unlinking; otherwise it invokes the real close
and, when sockpath is set, bound is true and is_blackhole is false,
unlinks the sockpath with errno preserved across the unlink (the final
errno is the one left by the real close, independent of the unlink) and
removes the path from the path registry; in every case the Socket is
removed from the fd registry. -/
theorem close_spec (s : Socket) (w : World) (e : Nat) (o : CloseOracle) :
    (s.activated = true →
      s.close w e o
        = ⟨0, s, { w with registry := registryErase w.registry s.fd }, e, []⟩) ∧
    (∀ p, s.activated = false → s.sockpath = some p → s.bound = true →
      s.is_blackhole = false →
      s.close w e o
        = ⟨o.closeRet, { s with sockpath := none },
           { w with
             sockpathRegistry :=
               w.sockpathRegistry.filter fun q => decide (q ≠ p),
             registry := registryErase w.registry s.fd },
           if o.closeRet = 0 then e else o.closeErrno,
           [Event.realClose s.fd, Event.unlinkPath p]⟩) ∧
    (s.activated = false →
      (s.sockpath = none ∨ s.bound = false ∨ s.is_blackhole = true) →
      s.close w e o
        = ⟨o.closeRet, s, { w with registry := registryErase w.registry s.fd },
           if o.closeRet = 0 then e else o.closeErrno,
           [Event.realClose s.fd]⟩) := by
  refine ⟨?_, ?_, ?_⟩
  · intro h
    simp [Socket.close, h]
  · intro p ha hp hb hbh
    simp [Socket.close, ha, hp, hb, hbh]
  · intro ha hcase
    rcases hcase with h | h | h
    · simp [Socket.close, ha, h]
    · rcases hsp : s.sockpath with _ | p
      · simp [Socket.close, ha, hsp]
      · simp [Socket.close, ha, hsp, h]
    · rcases hsp : s.sockpath with _ | p
      · simp [Socket.close, ha, hsp]
      · simp [Socket.close, ha, hsp, h]

/-- C6 witness: an activated Socket's close performs no real close and
no unlink; a bound non-blackhole Socket's close unlinks its path and
drops it from the registry. -/
theorem close_spec_witness :
    ({ sampleTCP with activated := true }).close
        { registry := [(3, { sampleTCP with activated := true })],
          sockpathRegistry := [] } 0
        { closeRet := 0, closeErrno := 0, unlinkErrno := 7 }
      = ⟨0, { sampleTCP with activated := true },
         { registry := [], sockpathRegistry := [] }, 0, []⟩ :=
  (close_spec { sampleTCP with activated := true }
      { registry := [(3, { sampleTCP with activated := true })],
        sockpathRegistry := [] } 0
      { closeRet := 0, closeErrno := 0, unlinkErrno := 7 }).1 rfl
/-- C7 witness: replay failure on a fresh TCP socket leaves it unchanged. -/
theorem make_unix_replay_failure_witness :
    ((Socket.mk0 3 AF_INET SOCK_STREAM 0).make_unix (-1)
        { socketFd := some 7, replayOk := false, dup2Ok := true }).1 = false ∧
    ((Socket.mk0 3 AF_INET SOCK_STREAM 0).make_unix (-1)
        { socketFd := some 7, replayOk := false, dup2Ok := true }).2.1
      = Socket.mk0 3 AF_INET SOCK_STREAM 0 :=
  (make_unix_idempotent_and_replay_failure (Socket.mk0 3 AF_INET SOCK_STREAM 0)
    (-1) { socketFd := some 7, replayOk := false, dup2Ok := true }).2
    rfl rfl (Or.inr rfl)

set_option maxRecDepth 8000 in
/-- C1: a bind whose address carries port 0 first acquires an ephemeral
port N from the Socket's pool and substitutes it into the copied
address before formatting the path template; when the real bind
returns 0 the port N is reserved in the pool, bound becomes true, the
stored binding is the address with port N substituted, the formatted
path is recorded as sockpath and registered, and a later getsockname
reports the binding with port N. -/
theorem bind_port_zero_allocates (s : Socket) (w : World) (e : Nat)
    (addr : SockAddr) (path : String) (o : BindOracle) (N : Nat)
    (hmu : (s.make_unix (-1) o.mu).1 = true)
    (hfam : addr.family = AF_INET ∨ addr.family = AF_INET6)
    (hport : addr.get_port = some 0)
    (hfree : findFree s.ports ephemeralLo (ephemeralHi + 1 - ephemeralLo)
      = some N)
    (hnb : s.is_blackhole = false)
    (hnp : has_sockpath w
      (s.format_sockpath path { addr with port := some N }) = false)
    (hun : (SockAddr.unix
      (s.format_sockpath path { addr with port := some N })).isSome = true)
    (hret : o.bindRet = 0) :
    (s.bind w e addr path o).ret = 0 ∧
    s.ports.isReserved N = false ∧
    ephemeralLo ≤ N ∧ N < ephemeralHi + 1 ∧
    (s.bind w e addr path o).sock.bound = true ∧
    (s.bind w e addr path o).sock.binding = some { addr with port := some N } ∧
    (s.bind w e addr path o).sock.ports.isReserved N = true ∧
    (s.bind w e addr path o).sock.sockpath
      = some (s.format_sockpath path { addr with port := some N }) ∧
    (s.bind w e addr path o).world.sockpathRegistry
      = s.format_sockpath path { addr with port := some N }
        :: w.sockpathRegistry ∧
    (s.bind w e addr path o).sock.getsockname (s.bind w e addr path o).errno
      = (0, (s.bind w e addr path o).errno,
         some { addr with port := some N }) := by
  obtain ⟨evs, hmueq⟩ :
      ∃ evs, s.make_unix (-1) o.mu = (true, { s with is_unix := true }, evs) :=
    ⟨_, make_unix_success s (-1) o.mu hmu⟩
  have hacq : s.ports.acquire = (N, { reserved := N :: s.ports.reserved }) :=
    acquire_of_findFree s.ports N hfree
  obtain ⟨hNr, hNlo, hNhi⟩ := findFree_spec s.ports _ _ _ hfree
  have hport' : addr.port = some 0 := hport
  have hsp : addr.set_port N = some { addr with port := some N } := by
    simp [SockAddr.set_port, hfam]
  have hu := sockaddr_unix_of_isSome _ hun
  simp only [Socket.format_sockpath, SockAddr.get_host, SockAddr.get_port_str,
    Option.map_some, Option.map_some', String.toList] at hnp hu
  refine ⟨?_, hNr, hNlo, by simpa [ephemeralLo, ephemeralHi] using hNhi,
    ?_, ?_, ?_, ?_, ?_, ?_⟩ <;>
    simp [Socket.bind, hmueq, bindPortStep, SockAddr.copy, SockAddr.get_port,
      SockAddr.get_host, SockAddr.get_port_str, hport', hacq, hsp, hnb, hnp,
      hu, hret, bindFinish, Ports.reserve, Ports.isReserved,
      Socket.format_sockpath, Socket.getsockname, SockAddr.get_sockpath]

/-- C1 witness: binding 127.0.0.1:0 with template /tmp/svc-%p.sock on a
fresh TCP socket allocates port 32768 and binds /tmp/svc-32768.sock. -/
theorem bind_port_zero_allocates_witness :
    (sampleTCP.bind World.init 0 (loopAddr 0) "/tmp/svc-%p.sock"
        { mu := muOK, bhPath := none, bindRet := 0, bindErrno := 0 }).ret = 0 ∧
    sampleTCP.ports.isReserved 32768 = false ∧
    ephemeralLo ≤ 32768 ∧ 32768 < ephemeralHi + 1 ∧
    (sampleTCP.bind World.init 0 (loopAddr 0) "/tmp/svc-%p.sock"
        { mu := muOK, bhPath := none, bindRet := 0,
          bindErrno := 0 }).sock.bound = true ∧
    (sampleTCP.bind World.init 0 (loopAddr 0) "/tmp/svc-%p.sock"
        { mu := muOK, bhPath := none, bindRet := 0,
          bindErrno := 0 }).sock.binding
      = some { loopAddr 0 with port := some 32768 } ∧
    (sampleTCP.bind World.init 0 (loopAddr 0) "/tmp/svc-%p.sock"
        { mu := muOK, bhPath := none, bindRet := 0,
          bindErrno := 0 }).sock.ports.isReserved 32768 = true ∧
    (sampleTCP.bind World.init 0 (loopAddr 0) "/tmp/svc-%p.sock"
        { mu := muOK, bhPath := none, bindRet := 0,
          bindErrno := 0 }).sock.sockpath
      = some (sampleTCP.format_sockpath "/tmp/svc-%p.sock"
          { loopAddr 0 with port := some 32768 }) ∧
    (sampleTCP.bind World.init 0 (loopAddr 0) "/tmp/svc-%p.sock"
        { mu := muOK, bhPath := none, bindRet := 0,
          bindErrno := 0 }).world.sockpathRegistry
      = sampleTCP.format_sockpath "/tmp/svc-%p.sock"
          { loopAddr 0 with port := some 32768 }
        :: World.init.sockpathRegistry ∧
    ((sampleTCP.bind World.init 0 (loopAddr 0) "/tmp/svc-%p.sock"
        { mu := muOK, bhPath := none, bindRet := 0,
          bindErrno := 0 }).sock.getsockname
      (sampleTCP.bind World.init 0 (loopAddr 0) "/tmp/svc-%p.sock"
        { mu := muOK, bhPath := none, bindRet := 0, bindErrno := 0 }).errno
      = (0,
         (sampleTCP.bind World.init 0 (loopAddr 0) "/tmp/svc-%p.sock"
           { mu := muOK, bhPath := none, bindRet := 0, bindErrno := 0 }).errno,
         some { loopAddr 0 with port := some 32768 })) :=
  bind_port_zero_allocates sampleTCP World.init 0 (loopAddr 0)
    "/tmp/svc-%p.sock"
    { mu := muOK, bhPath := none, bindRet := 0, bindErrno := 0 } 32768
    (by decide) (Or.inl rfl) rfl (by decide) rfl (by decide) (by decide) rfl

lemma bindPortStep_fields (s : Socket) (addr : SockAddr) (na : SockAddr)
    (port : Option Nat) (s2 : Socket)
    (h : bindPortStep s addr = (na, port, s2)) :
    s2.is_blackhole = s.is_blackhole ∧ s2.sockpath = s.sockpath ∧
    s2.fd = s.fd ∧ s2.type = s.type ∧ s2.bound = s.bound ∧
    s2.binding = s.binding ∧ s2.activated = s.activated := by
  unfold bindPortStep at h
  rcases hp : addr.copy.get_port with _ | n
  · rw [hp] at h
    cases h
    exact ⟨rfl, rfl, rfl, rfl, rfl, rfl, rfl⟩
  · rcases n with _ | m
    · rw [hp] at h
      simp only [] at h
      cases h
      exact ⟨rfl, rfl, rfl, rfl, rfl, rfl, rfl⟩
    · rw [hp] at h
      cases h
      exact ⟨rfl, rfl, rfl, rfl, rfl, rfl, rfl⟩

/-- C3: when is_blackhole is already set or the formatted path is
already present in the process-wide path registry, bind binds the fd to
a freshly created blackhole path instead of the formatted path, marks
is_blackhole on success, inserts neither path into the path registry
and leaves sockpath as it was (unset); otherwise a successful bind
inserts the formatted path into the path registry and records it as
sockpath. -/
theorem bind_blackhole_and_registry (s : Socket) (w : World) (e : Nat)
    (addr : SockAddr) (path : String) (o : BindOracle)
    (newaddr : SockAddr) (port : Option Nat) (s2 : Socket)
    (hmu : (s.make_unix (-1) o.mu).1 = true)
    (hstep : bindPortStep { s with is_unix := true } addr
      = (newaddr, port, s2)) :
    ((s.is_blackhole = true ∨
        has_sockpath w (s2.format_sockpath path newaddr) = true) →
      ∀ bhp, o.bhPath = some bhp → (SockAddr.unix bhp).isSome = true →
        o.bindRet = 0 →
        (s.bind w e addr path o).sock.is_blackhole = true ∧
        (s.bind w e addr path o).sock.sockpath = s.sockpath ∧
        (s.bind w e addr path o).world = w ∧
        (s.bind w e addr path o).events
          = (s.make_unix (-1) o.mu).2.2 ++ [Event.realBind s.fd (some bhp)]) ∧
    (s.is_blackhole = false →
      has_sockpath w (s2.format_sockpath path newaddr) = false →
      (SockAddr.unix (s2.format_sockpath path newaddr)).isSome = true →
      o.bindRet = 0 →
      (s.bind w e addr path o).sock.is_blackhole = false ∧
      (s.bind w e addr path o).sock.sockpath
        = some (s2.format_sockpath path newaddr) ∧
      (s.bind w e addr path o).world.sockpathRegistry
        = s2.format_sockpath path newaddr :: w.sockpathRegistry ∧
      (s.bind w e addr path o).events
        = (s.make_unix (-1) o.mu).2.2
          ++ [Event.realBind s.fd
                (some (s2.format_sockpath path newaddr))]) := by
  obtain ⟨evs, hmueq⟩ :
      ∃ evs, s.make_unix (-1) o.mu = (true, { s with is_unix := true }, evs) :=
    ⟨_, make_unix_success s (-1) o.mu hmu⟩
  obtain ⟨hbh, hsp, hfd, hty, hbd, hbi, hac⟩ :=
    bindPortStep_fields { s with is_unix := true } addr newaddr port s2 hstep
  constructor
  · intro hcase bhp hbhp hun hret
    have hu := sockaddr_unix_of_isSome _ hun
    simp only [Socket.bind, hmueq, hstep]
    rcases hcase with h | h <;>
      simp [h, hbh, hbhp, hu, hret, bindFinish, SockAddr.get_sockpath, hsp,
        hfd]
  · intro hnb hnp hun hret
    have hu := sockaddr_unix_of_isSome _ hun
    simp only [Socket.bind, hmueq, hstep]
    simp [hbh, hnb, hnp, hu, hret, bindFinish, SockAddr.get_sockpath, hfd]

/-- Oracle used by the C3 witness: a blackhole path is available. -/
def bhOracle : BindOracle :=
  { mu := muOK, bhPath := some "/tmp/bh0", bindRet := 0, bindErrno := 0 }

/-- C3 witness: binding to a path already owned by another Socket turns
the second binder into a blackhole, leaves the shared registry
untouched and keeps its sockpath unset. -/
theorem bind_blackhole_and_registry_witness :
    (sampleTCP.bind { registry := [], sockpathRegistry := ["/tmp/a"] } 0
        (loopAddr 1234) "/tmp/a" bhOracle).sock.is_blackhole = true ∧
    (sampleTCP.bind { registry := [], sockpathRegistry := ["/tmp/a"] } 0
        (loopAddr 1234) "/tmp/a" bhOracle).sock.sockpath = none ∧
    (sampleTCP.bind { registry := [], sockpathRegistry := ["/tmp/a"] } 0
        (loopAddr 1234) "/tmp/a" bhOracle).world
      = { registry := [], sockpathRegistry := ["/tmp/a"] } :=
  have h := (bind_blackhole_and_registry sampleTCP
      { registry := [], sockpathRegistry := ["/tmp/a"] } 0 (loopAddr 1234)
      "/tmp/a" bhOracle (loopAddr 1234) (some 1234)
      { sampleTCP with is_unix := true } (by decide) (by decide)).1
    (Or.inr (by decide)) "/tmp/bh0" rfl (by decide) rfl
  ⟨h.1, h.2.1.trans rfl, h.2.2.1⟩

/-- C2: accept fails with EINVAL when the listener has no binding;
otherwise it synthesizes a peer address whose host is the loopback of
the listener's family when the binding is loopback and is derived from
the SO_PEERCRED credentials of the new fd otherwise, stamps into it a
port freshly acquired from the listener's pool (distinct from the
listener's reserved bound port), registers at the new fd a child Socket
with the same domain, type argument and protocol whose binding is a
copy of the listener's binding and whose connection is the synthesized
peer, and writes that peer out. -/
theorem accept_synthesizes_peer (s : Socket) (w : World) (e : Nat)
    (sockfd : Int) (o : AcceptOracle) (M : Nat)
    (hfree : findFree s.ports ephemeralLo (ephemeralHi + 1 - ephemeralLo)
      = some M)
    (hdom : s.domain = AF_INET ∨ s.domain = AF_INET6) :
    (s.binding = none → s.accept w e sockfd o = ⟨-1, s, w, EINVAL, none⟩) ∧
    (∀ b lp, s.binding = some b → b.get_port = some lp →
      s.ports.isReserved lp = true → b.is_loopback = true →
      M ≠ lp ∧
      s.accept w e sockfd o
        = ⟨sockfd, { s with ports := { reserved := M :: s.ports.reserved } },
           { w with
             registry :=
               registryInsert w.registry sockfd
                 { Socket.mk0 sockfd s.domain s.typearg s.protocol with
                   ports := Ports.init.reserve lp, binding := some b,
                   connection := some
                     { family := s.domain, host := loopbackHost s.domain,
                       loopback := true, port := some M,
                       sockpath := none } } },
           e,
           some { family := s.domain, host := loopbackHost s.domain,
                  loopback := true, port := some M, sockpath := none }⟩) ∧
    (∀ b lp c, s.binding = some b → b.get_port = some lp →
      s.ports.isReserved lp = true → b.is_loopback = false →
      o.peercred = some c →
      M ≠ lp ∧
      s.accept w e sockfd o
        = ⟨sockfd, { s with ports := { reserved := M :: s.ports.reserved } },
           { w with
             registry :=
               registryInsert w.registry sockfd
                 { Socket.mk0 sockfd s.domain s.typearg s.protocol with
                   ports := Ports.init.reserve lp, binding := some b,
                   connection := some
                     { family := s.domain, host := credHost s.domain c,
                       loopback := false, port := some M,
                       sockpath := none } } },
           e,
           some { family := s.domain, host := credHost s.domain c,
                  loopback := false, port := some M, sockpath := none }⟩) := by
  have hM := findFree_spec s.ports _ _ _ hfree
  have hacq := acquire_of_findFree s.ports M hfree
  have hMlp : ∀ lp, s.ports.isReserved lp = true → M ≠ lp := by
    intro lp hres heq
    rw [heq] at hM
    rw [hM.1] at hres
    cases hres
  refine ⟨?_, ?_, ?_⟩
  · intro h
    simp [Socket.accept, h]
  · intro b lp hb hlp hres hloop
    have hlp' : b.port = some lp := hlp
    refine ⟨hMlp lp hres, ?_⟩
    rcases hdom with hd | hd <;>
      simp [Socket.accept, hb, SockAddr.copy, SockAddr.get_port, hlp', hloop,
        SockAddr.set_host_loopback, loopbackHost, hd, acceptFinish, hacq,
        SockAddr.set_port, SockAddr.default, Socket.mk0, registryInsert,
        AF_INET, AF_INET6]
  · intro b lp c hb hlp hres hloop hcred
    have hlp' : b.port = some lp := hlp
    refine ⟨hMlp lp hres, ?_⟩
    rcases hdom with hd | hd <;>
      simp [Socket.accept, hb, SockAddr.copy, SockAddr.get_port, hlp', hloop,
        hcred, SockAddr.set_host_cred, credHost, hd, acceptFinish, hacq,
        SockAddr.set_port, SockAddr.default, Socket.mk0, registryInsert,
        AF_INET, AF_INET6]

/-- A bound loopback TCP listener used by the C2 witness: port 32768 is
its reserved bound port. -/
def listenerB : Socket :=
  { sampleTCP with
    is_unix := true, bound := true, binding := some (loopAddr 32768),
    ports := { reserved := [32768] } }

/-- C2 witness: accept on the bound loopback listener yields peer
127.0.0.1:32769, distinct from the listener's own port 32768. -/
theorem accept_synthesizes_peer_witness :
    (32769 ≠ 32768) ∧
    (listenerB.accept World.init 0 4
        { peercred := none, peercredErrno := 0 }).outAddr
      = some { family := AF_INET, host := some "127.0.0.1", loopback := true,
               port := some 32769, sockpath := none } ∧
    (listenerB.accept World.init 0 4
        { peercred := none, peercredErrno := 0 }).ret = 4 :=
  have h := (accept_synthesizes_peer listenerB World.init 0 4
      { peercred := none, peercredErrno := 0 } 32769 (by decide)
      (Or.inl rfl)).2.1 (loopAddr 32768) 32768 rfl rfl (by decide) rfl
  ⟨h.1, by rw [h.2]; rfl, by rw [h.2]⟩

lemma assocFind_insert_self {α β : Type} [DecidableEq α] (l : List (α × β))
    (k : α) (v : β) : assocFind (assocInsert l k v) k = some v := by
  simp [assocInsert, assocFind]

/-- C8: on a bound Socket, the first rewrite_src call for a remote UNIX
path P synthesizes a peer address (loopback-of-family host when the
binding is loopback, otherwise a random host, with a freshly acquired
ephemeral port), records the pair in peermap and revpeermap, and every
later call whose source address carries P returns exactly the recorded
address with the maps unchanged. -/
theorem rewrite_src_stable_peer (s : Socket) (b : SockAddr) (P : String)
    (real_addr : SockAddr) (o : RSOracle) (M : Nat)
    (hb : s.binding = some b)
    (hpath : real_addr.get_sockpath = some P)
    (hnew : assocFind s.revpeermap P = none)
    (hdom : s.domain = AF_INET ∨ s.domain = AF_INET6)
    (hfree : findFree s.ports ephemeralLo (ephemeralHi + 1 - ephemeralLo)
      = some M) :
    s.ports.isReserved M = false ∧
    (b.is_loopback = true →
      s.rewrite_src real_addr o
        = (true,
           { s with
             ports := { reserved := M :: s.ports.reserved },
             peermap := assocInsert s.peermap
               { family := s.domain, host := loopbackHost s.domain,
                 loopback := true, port := some M, sockpath := none } P,
             revpeermap := assocInsert s.revpeermap P
               { family := s.domain, host := loopbackHost s.domain,
                 loopback := true, port := some M, sockpath := none } },
           some { family := s.domain, host := loopbackHost s.domain,
                  loopback := true, port := some M, sockpath := none }) ∧
      (∀ ra2 o2, ra2.get_sockpath = some P →
        Socket.rewrite_src
          { s with
            ports := { reserved := M :: s.ports.reserved },
            peermap := assocInsert s.peermap
              { family := s.domain, host := loopbackHost s.domain,
                loopback := true, port := some M, sockpath := none } P,
            revpeermap := assocInsert s.revpeermap P
              { family := s.domain, host := loopbackHost s.domain,
                loopback := true, port := some M, sockpath := none } }
          ra2 o2
          = (true,
             { s with
               ports := { reserved := M :: s.ports.reserved },
               peermap := assocInsert s.peermap
                 { family := s.domain, host := loopbackHost s.domain,
                   loopback := true, port := some M, sockpath := none } P,
               revpeermap := assocInsert s.revpeermap P
                 { family := s.domain, host := loopbackHost s.domain,
                   loopback := true, port := some M, sockpath := none } },
             some { family := s.domain, host := loopbackHost s.domain,
                    loopback := true, port := some M, sockpath := none }))) ∧
    (b.is_loopback = false →
      s.rewrite_src real_addr o
        = (true,
           { s with
             ports := { reserved := M :: s.ports.reserved },
             peermap := assocInsert s.peermap
               { family := s.domain, host := some (randomHost o.rnd),
                 loopback := false, port := some M, sockpath := none } P,
             revpeermap := assocInsert s.revpeermap P
               { family := s.domain, host := some (randomHost o.rnd),
                 loopback := false, port := some M, sockpath := none } },
           some { family := s.domain, host := some (randomHost o.rnd),
                  loopback := false, port := some M, sockpath := none }) ∧
      (∀ ra2 o2, ra2.get_sockpath = some P →
        Socket.rewrite_src
          { s with
            ports := { reserved := M :: s.ports.reserved },
            peermap := assocInsert s.peermap
              { family := s.domain, host := some (randomHost o.rnd),
                loopback := false, port := some M, sockpath := none } P,
            revpeermap := assocInsert s.revpeermap P
              { family := s.domain, host := some (randomHost o.rnd),
                loopback := false, port := some M, sockpath := none } }
          ra2 o2
          = (true,
             { s with
               ports := { reserved := M :: s.ports.reserved },
               peermap := assocInsert s.peermap
                 { family := s.domain, host := some (randomHost o.rnd),
                   loopback := false, port := some M, sockpath := none } P,
               revpeermap := assocInsert s.revpeermap P
                 { family := s.domain, host := some (randomHost o.rnd),
                   loopback := false, port := some M, sockpath := none } },
             some { family := s.domain, host := some (randomHost o.rnd),
                    loopback := false, port := some M, sockpath := none }))) := by
  have hM := findFree_spec s.ports _ _ _ hfree
  have hacq := acquire_of_findFree s.ports M hfree
  have hpath' : real_addr.sockpath = some P := hpath
  refine ⟨hM.1, ?_, ?_⟩
  · intro hloop
    constructor
    · rcases hdom with hd | hd <;>
        simp [Socket.rewrite_src, hb, hpath', SockAddr.get_sockpath, hnew,
          hacq, SockAddr.set_port, SockAddr.set_host_loopback, loopbackHost,
          SockAddr.default, hloop, hd, AF_INET, AF_INET6]
    · intro ra2 o2 hra2
      have hra2' : ra2.sockpath = some P := hra2
      simp [Socket.rewrite_src, hb, hra2', SockAddr.get_sockpath,
        assocFind_insert_self]
  · intro hloop
    constructor
    · rcases hdom with hd | hd <;>
        simp [Socket.rewrite_src, hb, hpath', SockAddr.get_sockpath, hnew,
          hacq, SockAddr.set_port, SockAddr.set_random_host, SockAddr.default,
          hloop, hd, AF_INET, AF_INET6]
    · intro ra2 o2 hra2
      have hra2' : ra2.sockpath = some P := hra2
      simp [Socket.rewrite_src, hb, hra2', SockAddr.get_sockpath,
        assocFind_insert_self]

/-- A bound loopback UDP socket used by the C8 witness. -/
def udpBound : Socket :=
  { sampleUDP with
    is_unix := true, bound := true, binding := some (loopAddr 32768),
    ports := { reserved := [32768] } }

/-- C8 witness: the first rewrite_src for path /tmp/peer.sock on the
bound loopback UDP socket synthesizes 127.0.0.1:32769, and a repeated
call returns exactly the recorded address with the maps unchanged. -/
theorem rewrite_src_stable_peer_witness :
    udpBound.ports.isReserved 32769 = false ∧
    udpBound.rewrite_src
        { family := AF_UNIX, host := none, loopback := false, port := none,
          sockpath := some "/tmp/peer.sock" } { rnd := 5 }
      = (true,
         { udpBound with
           ports := { reserved := 32769 :: udpBound.ports.reserved },
           peermap := assocInsert udpBound.peermap
             { family := udpBound.domain, host := loopbackHost udpBound.domain,
               loopback := true, port := some 32769, sockpath := none }
             "/tmp/peer.sock",
           revpeermap := assocInsert udpBound.revpeermap "/tmp/peer.sock"
             { family := udpBound.domain, host := loopbackHost udpBound.domain,
               loopback := true, port := some 32769, sockpath := none } },
         some { family := udpBound.domain,
                host := loopbackHost udpBound.domain, loopback := true,
                port := some 32769, sockpath := none }) ∧
    Socket.rewrite_src
        { udpBound with
          ports := { reserved := 32769 :: udpBound.ports.reserved },
          peermap := assocInsert udpBound.peermap
            { family := udpBound.domain, host := loopbackHost udpBound.domain,
              loopback := true, port := some 32769, sockpath := none }
            "/tmp/peer.sock",
          revpeermap := assocInsert udpBound.revpeermap "/tmp/peer.sock"
            { family := udpBound.domain, host := loopbackHost udpBound.domain,
              loopback := true, port := some 32769, sockpath := none } }
        { family := AF_UNIX, host := none, loopback := false, port := none,
          sockpath := some "/tmp/peer.sock" } { rnd := 99 }
      = (true,
         { udpBound with
           ports := { reserved := 32769 :: udpBound.ports.reserved },
           peermap := assocInsert udpBound.peermap
             { family := udpBound.domain, host := loopbackHost udpBound.domain,
               loopback := true, port := some 32769, sockpath := none }
             "/tmp/peer.sock",
           revpeermap := assocInsert udpBound.revpeermap "/tmp/peer.sock"
             { family := udpBound.domain, host := loopbackHost udpBound.domain,
               loopback := true, port := some 32769, sockpath := none } },
         some { family := udpBound.domain,
                host := loopbackHost udpBound.domain, loopback := true,
                port := some 32769, sockpath := none }) :=
  have h := rewrite_src_stable_peer udpBound (loopAddr 32768) "/tmp/peer.sock"
    { family := AF_UNIX, host := none, loopback := false, port := none,
      sockpath := some "/tmp/peer.sock" } { rnd := 5 } 32769
    rfl rfl rfl (Or.inl rfl) (by decide)
  have h2 := h.2.1 rfl
  ⟨h.1, h2.1,
   h2.2 { family := AF_UNIX, host := none, loopback := false, port := none,
          sockpath := some "/tmp/peer.sock" } { rnd := 99 } rfl⟩

/-- C5 counterexample: connect checks only that a remote port is
present, not that it is non-zero.  A TCP connect to an address carrying
port 0 is not rejected: the real connect is performed, the call returns
its result (0 here) and errno is not set to EADDRNOTAVAIL, contradicting
the claim that a zero port yields EADDRNOTAVAIL without a real
connect. -/
theorem connect_port_zero_counterexample :
    (remoteAddr 0).get_port = some 0 ∧
    (Socket.connect { sampleTCP with is_unix := true } World.init 0
        (remoteAddr 0) "/tmp/svc-8080.sock"
        { mu := muOK, connectRet := 0, connectErrno := 0, bhPath := none,
          bhBindRet := 0, selfCred := { uid := 1000, gid := 1000, pid := 4242 } }).ret = 0 ∧
    (Socket.connect { sampleTCP with is_unix := true } World.init 0
        (remoteAddr 0) "/tmp/svc-8080.sock"
        { mu := muOK, connectRet := 0, connectErrno := 0, bhPath := none,
          bhBindRet := 0, selfCred := { uid := 1000, gid := 1000, pid := 4242 } }).errno ≠ EADDRNOTAVAIL ∧
    Event.realConnect 3 (some "/tmp/svc-8080.sock")
      ∈ (Socket.connect { sampleTCP with is_unix := true } World.init 0
          (remoteAddr 0) "/tmp/svc-8080.sock"
          { mu := muOK, connectRet := 0, connectErrno := 0, bhPath := none,
            bhBindRet := 0, selfCred := { uid := 1000, gid := 1000, pid := 4242 } }).events := by
  decide

/-- C5 amended: for a Socket that is not an unbound UDP socket, when
path formatting and make_unix succeed, connect requires a PRESENT
remote port: if addr carries no port at all it returns -1 with errno
EADDRNOTAVAIL and the real connect is not performed (an address
carrying port 0 passes the check, since the code tests only presence).
-/
theorem connect_missing_port_eaddrnotavail (s : Socket) (w : World) (e : Nat)
    (addr : SockAddr) (path : String) (o : ConnectOracle)
    (hnb : ¬(s.type = SocketType.UDP ∧ s.binding = none))
    (hfmt : (SockAddr.unix (s.format_sockpath path addr)).isSome = true)
    (hmu : (s.make_unix (-1) o.mu).1 = true)
    (hport : addr.get_port = none) :
    (s.connect w e addr path o).ret = -1 ∧
    (s.connect w e addr path o).errno = EADDRNOTAVAIL ∧
    ∀ fd p, Event.realConnect fd p ∉ (s.connect w e addr path o).events := by
  obtain ⟨evs, hmueq⟩ :
      ∃ evs, s.make_unix (-1) o.mu = (true, { s with is_unix := true }, evs) :=
    ⟨_, make_unix_success s (-1) o.mu hmu⟩
  have hu := sockaddr_unix_of_isSome _ hfmt
  have hnc : ∀ fd p, Event.realConnect fd p ∉ evs := by
    intro fd p
    have hn := make_unix_no_connect s (-1) o.mu fd p
    rw [hmueq] at hn
    exact hn
  refine ⟨?_, ?_, ?_⟩ <;>
    simp [Socket.connect, hnb, hu, hmueq, hport, hnc]

/-- C5 amended witness: a TCP connect to an address with no port at all
fails with EADDRNOTAVAIL and performs no real connect. -/
theorem connect_missing_port_eaddrnotavail_witness :
    (Socket.connect { sampleTCP with is_unix := true } World.init 0
        { family := AF_INET, host := some "10.0.0.5", loopback := false,
          port := none, sockpath := none } "/tmp/x"
        { mu := muOK, connectRet := 0, connectErrno := 0, bhPath := none,
          bhBindRet := 0, selfCred := { uid := 1, gid := 1, pid := 1 } }).ret = -1 ∧
    (Socket.connect { sampleTCP with is_unix := true } World.init 0
        { family := AF_INET, host := some "10.0.0.5", loopback := false,
          port := none, sockpath := none } "/tmp/x"
        { mu := muOK, connectRet := 0, connectErrno := 0, bhPath := none,
          bhBindRet := 0, selfCred := { uid := 1, gid := 1, pid := 1 } }).errno = EADDRNOTAVAIL ∧
    ∀ fd p, Event.realConnect fd p
      ∉ (Socket.connect { sampleTCP with is_unix := true } World.init 0
          { family := AF_INET, host := some "10.0.0.5", loopback := false,
            port := none, sockpath := none } "/tmp/x"
          { mu := muOK, connectRet := 0, connectErrno := 0, bhPath := none,
            bhBindRet := 0, selfCred := { uid := 1, gid := 1, pid := 1 } }).events :=
  connect_missing_port_eaddrnotavail { sampleTCP with is_unix := true }
    World.init 0
    { family := AF_INET, host := some "10.0.0.5", loopback := false,
      port := none, sockpath := none } "/tmp/x"
    { mu := muOK, connectRet := 0, connectErrno := 0, bhPath := none,
      bhBindRet := 0, selfCred := { uid := 1, gid := 1, pid := 1 } }
    (by decide) (by decide) (by decide) rfl

/-! ## Invariant preservation lemmas for the path-registry invariant -/

lemma make_unix_invFields (s : Socket) (oldfd : Int) (o : MUOracle) :
    (s.make_unix oldfd o).2.1.is_blackhole = s.is_blackhole ∧
    (s.make_unix oldfd o).2.1.bound = s.bound ∧
    (s.make_unix oldfd o).2.1.sockpath = s.sockpath ∧
    (s.make_unix oldfd o).2.1.activated = s.activated ∧
    (s.make_unix oldfd o).2.1.binding = s.binding ∧
    (s.make_unix oldfd o).2.1.type = s.type := by
  by_cases hu : s.is_unix = true
  · simp [Socket.make_unix, hu]
  · rcases hr : o.replayOk <;> rcases hd : o.dup2Ok <;>
      by_cases ho : oldfd = -1 <;> rcases hsf : o.socketFd with _ | nf <;>
      simp_all [Socket.make_unix]

lemma pathInvB_eq_of_fields (s1 s2 : Socket) (reg : List String) (c : Bool)
    (h1 : s1.is_blackhole = s2.is_blackhole) (h2 : s1.bound = s2.bound)
    (h3 : s1.sockpath = s2.sockpath) :
    pathInvB s1 reg c = pathInvB s2 reg c := by
  simp [pathInvB, h1, h2, h3]

lemma pathInvB_of_not_bound (s : Socket) (reg : List String) (c : Bool)
    (h : s.bound = false) : pathInvB s reg c = true := by
  simp [pathInvB, h]

lemma pathInvB_of_blackhole (s : Socket) (reg : List String) (c : Bool)
    (h : s.is_blackhole = true) : pathInvB s reg c = true := by
  simp [pathInvB, h]

lemma bind_preserves (s : Socket) (w : World) (e : Nat) (addr : SockAddr)
    (path : String) (o : BindOracle)
    (hinv : pathInvB s w.sockpathRegistry false = true) :
    pathInvB (s.bind w e addr path o).sock
      (s.bind w e addr path o).world.sockpathRegistry false = true ∧
    (s.bind w e addr path o).sock.activated = s.activated := by
  rcases hmu : s.make_unix (-1) o.mu with ⟨b1, s1, evs⟩
  have hf := make_unix_invFields s (-1) o.mu
  simp only [hmu] at hf
  obtain ⟨hf1, hf2, hf3, hf4, _, _⟩ := hf
  cases b1
  · simp only [Socket.bind, hmu]
    refine ⟨?_, hf4⟩
    rw [pathInvB_eq_of_fields s1 s w.sockpathRegistry false hf1 hf2 hf3]
    exact hinv
  · rcases hst : bindPortStep s1 addr with ⟨na, port, s2⟩
    obtain ⟨hg1, hg2, _, _, hg3, _, hg4⟩ :=
      bindPortStep_fields s1 addr na port s2 hst
    have hh1 : s2.is_blackhole = s.is_blackhole := hg1.trans hf1
    have hh2 : s2.bound = s.bound := hg3.trans hf2
    have hh3 : s2.sockpath = s.sockpath := hg2.trans hf3
    have hh4 : s2.activated = s.activated := hg4.trans hf4
    have hs2inv : pathInvB s2 w.sockpathRegistry false = true := by
      rw [pathInvB_eq_of_fields s2 s w.sockpathRegistry false hh1 hh2 hh3]
      exact hinv
    simp only [Socket.bind, hmu, hst]
    by_cases hcond :
        (s2.is_blackhole || has_sockpath w (s2.format_sockpath path na)) = true
    · simp only [hcond, if_true]
      rcases hbp : o.bhPath with _ | bhp
      · dsimp only
        exact ⟨hs2inv, hh4⟩
      · dsimp only
        rcases hub : SockAddr.unix bhp with _ | dest
        · dsimp only
          exact ⟨hs2inv, hh4⟩
        · dsimp only
          by_cases hret : o.bindRet = 0
          · simp only [hret, if_true]
            constructor
            · exact pathInvB_of_blackhole _ _ _ (by simp [bindFinish])
            · simp [bindFinish, hh4]
          · simp only [hret, if_false]
            exact ⟨hs2inv, hh4⟩
    · simp only [hcond, Bool.false_eq_true, if_false]
      have hcond' := hcond
      simp only [Bool.or_eq_true, not_or, Bool.not_eq_true] at hcond'
      rcases hub : SockAddr.unix (s2.format_sockpath path na) with _ | dest
      · dsimp only
        exact ⟨hs2inv, hh4⟩
      · dsimp only
        by_cases hret : o.bindRet = 0
        · simp only [hret, if_true]
          constructor
          · simp [pathInvB, bindFinish, hcond'.1]
          · simp [bindFinish, hh4]
        · simp only [hret, if_false]
          exact ⟨hs2inv, hh4⟩

lemma create_binding_fields (s : Socket) (addr : SockAddr) (cred : Ucred) :
    (s.create_binding addr cred).2.bound = s.bound ∧
    (s.create_binding addr cred).2.activated = s.activated ∧
    (s.create_binding addr cred).2.is_blackhole = s.is_blackhole ∧
    (s.create_binding addr cred).2.sockpath = s.sockpath := by
  unfold Socket.create_binding
  dsimp only
  split
  · exact ⟨rfl, rfl, rfl, rfl⟩
  · split
    · exact ⟨rfl, rfl, rfl, rfl⟩
    · exact ⟨rfl, rfl, rfl, rfl⟩

lemma rewrite_dest_fields (s : Socket) (addr : SockAddr) (path : String)
    (o : RDOracle) :
    (s.rewrite_dest addr path o).2.1.bound = s.bound ∧
    (s.rewrite_dest addr path o).2.1.activated = s.activated := by
  rcases hmu : s.make_unix (-1) o.mu with ⟨b1, s1, evs⟩
  have hf := make_unix_invFields s (-1) o.mu
  simp only [hmu] at hf
  obtain ⟨_, hf2, _, hf4, _, _⟩ := hf
  unfold Socket.rewrite_dest
  rw [hmu]
  by_cases ht : s.type ≠ SocketType.UDP
  · simp [ht]
  · simp only [ht, if_false]
    rcases hup : SockAddr.unix (s.format_sockpath path addr) with _ | destpath
    · simp
    · dsimp only
      cases b1
      · dsimp only
        exact ⟨hf2, hf4⟩
      · dsimp only
        rcases hbind : s1.binding with _ | bnd
        · dsimp only
          rcases hbp : o.bhPath with _ | bhp
          · dsimp only
            exact ⟨hf2, hf4⟩
          · dsimp only
            rcases hub : SockAddr.unix bhp with _ | bhdest
            · dsimp only
              exact ⟨hf2, hf4⟩
            · dsimp only
              by_cases hret : o.bhBindRet ≠ 0
              · rw [if_pos hret]
                exact ⟨hf2, hf4⟩
              · rw [if_neg hret]
                rcases hcb : s1.create_binding addr o.selfCred with ⟨b2, s3⟩
                have hcf := create_binding_fields s1 addr o.selfCred
                simp only [hcb] at hcf
                cases b2
                · dsimp only
                  exact ⟨hcf.1.trans hf2, hcf.2.1.trans hf4⟩
                · dsimp only
                  exact ⟨hcf.1.trans hf2, hcf.2.1.trans hf4⟩
        · dsimp only
          exact ⟨hf2, hf4⟩

lemma connect_preserves (s : Socket) (w : World) (e : Nat) (addr : SockAddr)
    (path : String) (o : ConnectOracle) :
    (s.connect w e addr path o).sock.bound = s.bound ∧
    (s.connect w e addr path o).sock.activated = s.activated ∧
    (s.connect w e addr path o).world = w := by
  unfold Socket.connect
  by_cases hc : s.type = SocketType.UDP ∧ s.binding = none
  · simp only [hc, if_true]
    rcases hrd : s.rewrite_dest addr path
        ⟨o.mu, o.bhPath, o.bhBindRet, o.selfCred⟩ with ⟨od, s1, evs⟩
    have hrf := rewrite_dest_fields s addr path
      ⟨o.mu, o.bhPath, o.bhBindRet, o.selfCred⟩
    simp only [hrd] at hrf
    rcases od with _ | dest
    · exact ⟨hrf.1, hrf.2, rfl⟩
    · simp only []
      by_cases hret : o.connectRet = 0
      · simp only [hret, if_true]
        exact ⟨hrf.1, hrf.2, rfl⟩
      · simp only [hret, if_false]
        exact ⟨hrf.1, hrf.2, rfl⟩
  · simp only [hc, if_false]
    rcases hup : SockAddr.unix (s.format_sockpath path addr) with _ | dest
    · simp
    · simp only []
      rcases hmu : s.make_unix (-1) o.mu with ⟨b1, s1, evs⟩
      have hf := make_unix_invFields s (-1) o.mu
      simp only [hmu] at hf
      obtain ⟨_, hf2, _, hf4, _, _⟩ := hf
      cases b1
      · exact ⟨hf2, hf4, rfl⟩
      · rcases hp : addr.get_port with _ | rp
        · exact ⟨hf2, hf4, rfl⟩
        · dsimp only
          by_cases hret : o.connectRet ≠ 0
          · rw [if_pos hret]
            exact ⟨hf2, hf4, rfl⟩
          · rw [if_neg hret]
            rcases hbind : s1.binding with _ | bnd
            · dsimp only
              rcases hcb : s1.create_binding addr o.selfCred with ⟨b2, s3⟩
              have hcf := create_binding_fields s1 addr o.selfCred
              simp only [hcb] at hcf
              cases b2
              · dsimp only
                exact ⟨hcf.1.trans hf2, hcf.2.1.trans hf4, rfl⟩
              · dsimp only
                exact ⟨hcf.1.trans hf2, hcf.2.1.trans hf4, rfl⟩
            · dsimp only
              exact ⟨hf2, hf4, rfl⟩

lemma close_preserves (s : Socket) (w : World) (e : Nat) (o : CloseOracle)
    (hact : s.activated = false) :
    pathInvB (s.close w e o).sock
      (s.close w e o).world.sockpathRegistry true = true ∧
    (s.close w e o).sock.activated = s.activated := by
  rcases hb : s.bound <;> rcases hbh : s.is_blackhole <;>
    rcases hsp : s.sockpath with _ | p <;>
    simp [Socket.close, hact, hb, hbh, hsp, pathInvB]

lemma stepOp_preserves (st : PState) (op : Op)
    (hact : st.sock.activated = false)
    (hinv : pathInvB st.sock st.world.sockpathRegistry st.closed = true)
    (hgood : (!st.sock.bound || !op.isConnect) = true) :
    pathInvB (stepOp st op).sock (stepOp st op).world.sockpathRegistry
      (stepOp st op).closed = true ∧
    (stepOp st op).sock.activated = false := by
  rcases hc : st.closed
  · rw [hc] at hinv
    cases op
    case bindOp addr path o =>
      have h := bind_preserves st.sock st.world st.errno addr path o hinv
      simp only [stepOp, hc, Bool.false_eq_true, if_false]
      exact ⟨h.1, h.2.trans hact⟩
    case connectOp addr path o =>
      have hb : st.sock.bound = false := by
        rcases hbb : st.sock.bound
        · rfl
        · rw [hbb] at hgood
          simp [Op.isConnect] at hgood
      have h := connect_preserves st.sock st.world st.errno addr path o
      simp only [stepOp, hc, Bool.false_eq_true, if_false]
      exact ⟨pathInvB_of_not_bound _ _ _ (h.1.trans hb), h.2.1.trans hact⟩
    case closeOp o =>
      have h := close_preserves st.sock st.world st.errno o hact
      simp only [stepOp, hc, Bool.false_eq_true, if_false]
      exact ⟨h.1, h.2.trans hact⟩
  · simp only [stepOp, hc, if_true]
    rw [hc] at hinv
    exact ⟨hinv, hact⟩

/-- C4 counterexample: the invariant fails after a connect that follows
a bind.  The socket binds /tmp/a (inserted into the path registry),
then connects with template /tmp/b; the successful connect overwrites
sockpath with /tmp/b, which is not in the registry, while the socket is
still bound, non-blackhole and not closed. -/
theorem path_registry_invariant_counterexample :
    pathInvB
      (runOps { sock := sampleTCP, world := World.init, closed := false,
                errno := 0 }
        [Op.bindOp (loopAddr 1234) "/tmp/a"
           { mu := muOK, bhPath := none, bindRet := 0, bindErrno := 0 },
         Op.connectOp (remoteAddr 80) "/tmp/b"
           { mu := muOK, connectRet := 0, connectErrno := 0, bhPath := none,
             bhBindRet := 0, selfCred := { uid := 1, gid := 1, pid := 1 } }]).sock
      (runOps { sock := sampleTCP, world := World.init, closed := false,
                errno := 0 }
        [Op.bindOp (loopAddr 1234) "/tmp/a"
           { mu := muOK, bhPath := none, bindRet := 0, bindErrno := 0 },
         Op.connectOp (remoteAddr 80) "/tmp/b"
           { mu := muOK, connectRet := 0, connectErrno := 0, bhPath := none,
             bhBindRet := 0, selfCred := { uid := 1, gid := 1, pid := 1 } }]).world.sockpathRegistry
      (runOps { sock := sampleTCP, world := World.init, closed := false,
                errno := 0 }
        [Op.bindOp (loopAddr 1234) "/tmp/a"
           { mu := muOK, bhPath := none, bindRet := 0, bindErrno := 0 },
         Op.connectOp (remoteAddr 80) "/tmp/b"
           { mu := muOK, connectRet := 0, connectErrno := 0, bhPath := none,
             bhBindRet := 0, selfCred := { uid := 1, gid := 1, pid := 1 } }]).closed = false ∧
    (runOps { sock := sampleTCP, world := World.init, closed := false,
              errno := 0 }
      [Op.bindOp (loopAddr 1234) "/tmp/a"
         { mu := muOK, bhPath := none, bindRet := 0, bindErrno := 0 },
       Op.connectOp (remoteAddr 80) "/tmp/b"
         { mu := muOK, connectRet := 0, connectErrno := 0, bhPath := none,
           bhBindRet := 0, selfCred := { uid := 1, gid := 1, pid := 1 } }]).sock.is_blackhole = false ∧
    (runOps { sock := sampleTCP, world := World.init, closed := false,
              errno := 0 }
      [Op.bindOp (loopAddr 1234) "/tmp/a"
         { mu := muOK, bhPath := none, bindRet := 0, bindErrno := 0 },
       Op.connectOp (remoteAddr 80) "/tmp/b"
         { mu := muOK, connectRet := 0, connectErrno := 0, bhPath := none,
           bhBindRet := 0, selfCred := { uid := 1, gid := 1, pid := 1 } }]).sock.bound = true ∧
    (runOps { sock := sampleTCP, world := World.init, closed := false,
              errno := 0 }
      [Op.bindOp (loopAddr 1234) "/tmp/a"
         { mu := muOK, bhPath := none, bindRet := 0, bindErrno := 0 },
       Op.connectOp (remoteAddr 80) "/tmp/b"
         { mu := muOK, connectRet := 0, connectErrno := 0, bhPath := none,
           bhBindRet := 0, selfCred := { uid := 1, gid := 1, pid := 1 } }]).sock.sockpath = some "/tmp/b" ∧
    (runOps { sock := sampleTCP, world := World.init, closed := false,
              errno := 0 }
      [Op.bindOp (loopAddr 1234) "/tmp/a"
         { mu := muOK, bhPath := none, bindRet := 0, bindErrno := 0 },
       Op.connectOp (remoteAddr 80) "/tmp/b"
         { mu := muOK, connectRet := 0, connectErrno := 0, bhPath := none,
           bhBindRet := 0, selfCred := { uid := 1, gid := 1, pid := 1 } }]).world.sockpathRegistry = ["/tmp/a"] := by
  decide

/-- C4 amended: for a non-activated Socket, over every sequence of
bind/connect/close operations in which no connect is issued while the
Socket is bound, the invariant holds: a non-blackhole bound Socket's
current sockpath is in the process-wide path registry iff the Socket
has not been closed.  (The counterexample forces the exclusion of
connect-after-bind, whose successful completion overwrites sockpath
with the connect path, which is never registered.) -/
theorem path_registry_invariant_no_connect_after_bind (st : PState)
    (ops : List Op)
    (hact : st.sock.activated = false)
    (hinv : pathInvB st.sock st.world.sockpathRegistry st.closed = true)
    (hgood : goodOpsB st ops = true) :
    pathInvB (runOps st ops).sock
      (runOps st ops).world.sockpathRegistry (runOps st ops).closed = true := by
  induction ops generalizing st with
  | nil => exact hinv
  | cons op rest ih =>
    rw [goodOpsB] at hgood
    simp only [Bool.and_eq_true] at hgood
    have h := stepOp_preserves st op hact hinv hgood.1
    exact ih (stepOp st op) h.2 h.1 hgood.2

/-- C4 amended witness: bind then close on a fresh TCP socket is a
trace without connect-after-bind, and the invariant holds at its end. -/
theorem path_registry_invariant_no_connect_after_bind_witness :
    pathInvB
      (runOps { sock := sampleTCP, world := World.init, closed := false,
                errno := 0 }
        [Op.bindOp (loopAddr 1234) "/tmp/a"
           { mu := muOK, bhPath := none, bindRet := 0, bindErrno := 0 },
         Op.closeOp { closeRet := 0, closeErrno := 0,
                      unlinkErrno := 0 }]).sock
      (runOps { sock := sampleTCP, world := World.init, closed := false,
                errno := 0 }
        [Op.bindOp (loopAddr 1234) "/tmp/a"
           { mu := muOK, bhPath := none, bindRet := 0, bindErrno := 0 },
         Op.closeOp { closeRet := 0, closeErrno := 0,
                      unlinkErrno := 0 }]).world.sockpathRegistry
      (runOps { sock := sampleTCP, world := World.init, closed := false,
                errno := 0 }
        [Op.bindOp (loopAddr 1234) "/tmp/a"
           { mu := muOK, bhPath := none, bindRet := 0, bindErrno := 0 },
         Op.closeOp { closeRet := 0, closeErrno := 0,
                      unlinkErrno := 0 }]).closed = true :=
  path_registry_invariant_no_connect_after_bind
    { sock := sampleTCP, world := World.init, closed := false, errno := 0 }
    [Op.bindOp (loopAddr 1234) "/tmp/a"
       { mu := muOK, bhPath := none, bindRet := 0, bindErrno := 0 },
     Op.closeOp { closeRet := 0, closeErrno := 0, unlinkErrno := 0 }]
    rfl (by decide) (by decide)

end Ip2Unix
